import Mathlib

/-!
Verification of the layer-rotation engine of the `RubiksCube3D` component
(source: the React/three.js component in `src/unnamed/part_000`).

The embedding is a shallow, exact-arithmetic model of the completed-move
semantics of `rotateLayer` / `rotateFace`:

* every length is measured in centi-units, one hundredth of a world unit,
  so that the source's decimal constants are exact integers:
  `CUBE_SIZE = 1` is `100`, `SPACING = 0.02` is `2`, the grid unit
  `TOTAL_SIZE = 1.02` is `102`, the selection tolerance `0.5` is `50` and
  the declared `epsilon = 0.1` is `10`; positions (`THREE.Vector3`,
  floats in the source) become `Vec3` over `ℤ`;
* every angle is measured in quarter turns: a stored number `q` stands for
  the angle `q * (π/2)` radians, so the code's snap to the nearest
  multiple of 90 degrees is the rounding of `q` to the nearest integer;
* a mesh's world orientation (kept by three.js as an Euler triple in sync
  with a quaternion/matrix) becomes an exact rotation matrix `Mat3` over
  `ℤ`;
* the per-frame animation is modelled by itself (`animProgress`,
  `easeOutCubic`, `currentAngle`, `framePivot`, with times in integer
  milliseconds as `Date.now()` returns and the eased value in `ℚ`); a
  completed move is modelled big-step: the guard on `isAnimatingRef`, the
  layer filter, the exact 90-degree rotation the pivot holds at completion
  (the code snaps the pivot to the exact target angle before detaching),
  the detach with the drift-correction rounding of lines 285-299, the
  pivot reset and the completion callback;
* a promise that resolves `true` / `false` / with no value (`undefined`)
  becomes `some true` / `some false` / `none`.
-/

/-- A 3-component vector over `ℤ` (the exact model of a `THREE.Vector3`
holding lengths in centi-units, or an Euler triple in quarter turns). -/
structure Vec3 where
  x : ℤ
  y : ℤ
  z : ℤ
  deriving DecidableEq

/-- A 3x3 matrix over `ℤ`, row-major fields (the exact model of a mesh's
world rotation matrix: quarter-turn rotations have entries in {-1,0,1}). -/
structure Mat3 where
  m11 : ℤ
  m12 : ℤ
  m13 : ℤ
  m21 : ℤ
  m22 : ℤ
  m23 : ℤ
  m31 : ℤ
  m32 : ℤ
  m33 : ℤ
  deriving DecidableEq

/-- Matrix product. -/
def Mat3.mul (A B : Mat3) : Mat3 :=
  ⟨A.m11 * B.m11 + A.m12 * B.m21 + A.m13 * B.m31,
   A.m11 * B.m12 + A.m12 * B.m22 + A.m13 * B.m32,
   A.m11 * B.m13 + A.m12 * B.m23 + A.m13 * B.m33,
   A.m21 * B.m11 + A.m22 * B.m21 + A.m23 * B.m31,
   A.m21 * B.m12 + A.m22 * B.m22 + A.m23 * B.m32,
   A.m21 * B.m13 + A.m22 * B.m23 + A.m23 * B.m33,
   A.m31 * B.m11 + A.m32 * B.m21 + A.m33 * B.m31,
   A.m31 * B.m12 + A.m32 * B.m22 + A.m33 * B.m32,
   A.m31 * B.m13 + A.m32 * B.m23 + A.m33 * B.m33⟩

/-- Matrix applied to a vector. -/
def Mat3.apply (A : Mat3) (v : Vec3) : Vec3 :=
  ⟨A.m11 * v.x + A.m12 * v.y + A.m13 * v.z,
   A.m21 * v.x + A.m22 * v.y + A.m23 * v.z,
   A.m31 * v.x + A.m32 * v.y + A.m33 * v.z⟩

/-- The identity matrix (a new mesh's rotation). -/
def Mat3.identityM : Mat3 := ⟨1, 0, 0, 0, 1, 0, 0, 0, 1⟩

/-- Cosine of `k` quarter turns: `cos (k * π/2)`, exact. -/
def qcos (k : ℤ) : ℤ :=
  if k % 4 = 0 then 1 else if k % 4 = 1 then 0 else if k % 4 = 2 then -1 else 0

/-- Sine of `k` quarter turns: `sin (k * π/2)`, exact. -/
def qsin (k : ℤ) : ℤ :=
  if k % 4 = 0 then 0 else if k % 4 = 1 then 1 else if k % 4 = 2 then 0 else -1

/-- Rotation by `k` quarter turns about the X axis
(`THREE.Matrix4.makeRotationX`, right-handed). -/
def rotXmat (k : ℤ) : Mat3 :=
  ⟨1, 0, 0, 0, qcos k, -qsin k, 0, qsin k, qcos k⟩

/-- Rotation by `k` quarter turns about the Y axis. -/
def rotYmat (k : ℤ) : Mat3 :=
  ⟨qcos k, 0, qsin k, 0, 1, 0, -qsin k, 0, qcos k⟩

/-- Rotation by `k` quarter turns about the Z axis. -/
def rotZmat (k : ℤ) : Mat3 :=
  ⟨qcos k, -qsin k, 0, qsin k, qcos k, 0, 0, 0, 1⟩

/-- The matrix of the Euler triple `(a, b, c)` (quarter turns) in three.js
order `XYZ` (set on the pivot at line 128): `M = Rx(a) * Ry(b) * Rz(c)`. -/
def rotOfEuler (a b c : ℤ) : Mat3 :=
  (rotXmat a).mul ((rotYmat b).mul (rotZmat c))

/-- `atan2 y x` in quarter turns for the axis-aligned argument pairs that
arise from exact quarter-turn rotation matrices, composed with the code's
rounding to the nearest multiple of 90 degrees (lines 294-296). -/
def qatan2 (y x : ℤ) : ℤ :=
  if 0 < x then 0
  else if x < 0 then 2
  else if 0 < y then 1
  else if y < 0 then -1
  else 0

/-- `asin` in quarter turns on the clamped entry (`{-1, 0, 1}` for exact
quarter-turn matrices), composed with the rounding to 90-degree multiples. -/
def qasin (q : ℤ) : ℤ :=
  if 1 ≤ q then 1 else if q ≤ -1 then -1 else 0

/-- Euler `XYZ` angles of a rotation matrix, in quarter turns: three.js
`Euler.setFromRotationMatrix` for order `XYZ`
(`y = asin m13`; if `|m13| < 1` then `x = atan2 (-m23) m33` and
`z = atan2 (-m12) m11`, else `x = atan2 m32 m22` and `z = 0`), composed
with the snap of lines 294-296 that rounds each angle to the nearest
multiple of 90 degrees (the identity on the exact angles extracted here). -/
def eulerOfMat (m : Mat3) : ℤ × ℤ × ℤ :=
  if |m.m13| < 1 then
    (qatan2 (-m.m23) m.m33, qasin m.m13, qatan2 (-m.m12) m.m11)
  else
    (qatan2 m.m32 m.m22, qasin m.m13, 0)

/-- The drift-correction step for a mesh's rotation (lines 293-298): the
detached mesh's Euler angles are read back from its world transform, each
one is rounded to the nearest multiple of 90 degrees, and the rotation
matrix is rebuilt from the snapped angles by `mesh.updateMatrix()`. -/
def snapRotMat (m : Mat3) : Mat3 :=
  rotOfEuler (eulerOfMat m).1 (eulerOfMat m).2.1 (eulerOfMat m).2.2

/-- JS `Math.round` of the exact quotient `p / q` for integers with
`q > 0`: `Math.round x = ⌊x + 1/2⌋` (halves round up), and
`⌊p/q + 1/2⌋ = ⌊(2p + q) / (2q)⌋`, a floor division of integers. -/
def roundDiv (p q : ℤ) : ℤ :=
  (2 * p + q).fdiv (2 * q)

/-- One coordinate of the drift-correction position snap (lines 289-291):
`Math.round (p / 1.02) * 1.02`, in centi-units `round (p / 102) * 102`. -/
def snapCoord (p : ℤ) : ℤ :=
  roundDiv p 102 * 102

/-- The position snap applied to all three components. -/
def snapPos (v : Vec3) : Vec3 :=
  ⟨snapCoord v.x, snapCoord v.y, snapCoord v.z⟩

/-- Edge length of a cubie (`CUBE_SIZE = 1`, line 14), in centi-units. -/
def CUBE_SIZE : ℤ := 100

/-- Gap between cubies (`SPACING = 0.02`, line 15), in centi-units. -/
def SPACING : ℤ := 2

/-- Grid unit (`TOTAL_SIZE = CUBE_SIZE + SPACING = 1.02`, line 16). -/
def TOTAL_SIZE : ℤ := CUBE_SIZE + SPACING

/-- The constant declared at line 224 (`const epsilon = 0.1`, i.e. 10
centi-units); the layer filter at lines 238-240 does not use it. -/
def epsilon : ℤ := 10

/-- The tolerance the layer filter actually applies (the literal `0.5` of
lines 238-240), i.e. 50 centi-units. -/
def appliedTolerance : ℤ := 50

/-- The three rotation axes (the source passes the strings `x`, `y`, `z`). -/
inductive Axis
  | x
  | y
  | z
  deriving DecidableEq

/-- Component of a vector along an axis. -/
def axisCoord : Axis → Vec3 → ℤ
  | Axis.x, v => v.x
  | Axis.y, v => v.y
  | Axis.z, v => v.z

/-- The layer-membership test of the `activeCubies` filter (lines 228-242):
`targetPos = index * (1 + 0.02)` and
`Math.abs (worldPos[axis] - targetPos) < 0.5`; in centi-units the target is
`index * 102` and the bound is `50`. -/
def selects (axis : Axis) (index : ℤ) (p : Vec3) : Bool :=
  decide (|axisCoord axis p - index * (CUBE_SIZE + SPACING)| < appliedTolerance)

/-- Rotation by `direction` quarter turns about `axis`: the pivot's world
rotation at the completed end of a move (the code snaps the pivot to the
exact target angle `(π/2) * direction`, lines 278-280). -/
def quarterRot : Axis → ℤ → Mat3
  | Axis.x, d => rotXmat d
  | Axis.y, d => rotYmat d
  | Axis.z, d => rotZmat d

/-- One of the 27 sub-cubes: its world position (centi-units) and world
orientation (`mesh.position` and `mesh.rotation`, the latter stored here as
the exact rotation matrix its Euler triple denotes). -/
structure Cubie where
  position : Vec3
  rotation : Mat3
  deriving DecidableEq

/-- The mutable state of the component: the 27 cubies, the busy flag
(`isAnimatingRef`), the pivot's Euler rotation in quarter turns
(`pivot.rotation`), and how many times `onMoveComplete` has fired. -/
structure CubeState where
  cubies : List Cubie
  isAnimating : Bool
  pivotRot : Vec3
  completeCount : ℕ
  deriving DecidableEq

/-- Grid indices along one axis (the build loops of lines 88-90). -/
def gridIndices : List ℤ := [-1, 0, 1]

/-- The 27 cubies as built at lines 88-123: position
`(x * TOTAL_SIZE, y * TOTAL_SIZE, z * TOTAL_SIZE)`, identity rotation,
loops nested x outermost, z innermost. -/
def initialCubies : List Cubie :=
  gridIndices.flatMap fun x =>
    gridIndices.flatMap fun y =>
      gridIndices.map fun z =>
        { position := ⟨x * TOTAL_SIZE, y * TOTAL_SIZE, z * TOTAL_SIZE⟩,
          rotation := Mat3.identityM }

/-- The 27 canonical grid points `{-1,0,1}³ * TOTAL_SIZE`. -/
def gridPositions : List Vec3 :=
  initialCubies.map Cubie.position

/-- The state after mounting: solved cube, not animating, pivot at
identity, no completed moves. -/
def initialState : CubeState :=
  { cubies := initialCubies,
    isAnimating := false,
    pivotRot := ⟨0, 0, 0⟩,
    completeCount := 0 }

/-- A state in which a move is in flight (`isAnimatingRef.current = true`). -/
def busyState : CubeState :=
  { initialState with isAnimating := true }

/-- The cubies of the requested layer (the `activeCubies` filter,
lines 228-242). -/
def activeCubies (axis : Axis) (index : ℤ) (s : CubeState) : List Cubie :=
  s.cubies.filter fun mesh => selects axis index mesh.position

/-- Effect of a completed move on one cubie.  A cubie of the selected layer
is rotated by the pivot's final exact rotation (position and orientation,
preserved through `pivot.attach` / `scene.attach`) and then
drift-corrected: position components rounded to the nearest multiple of the
grid unit (lines 289-291), Euler angles rounded to the nearest multiple of
90 degrees (lines 294-296).  A cubie outside the layer is untouched. -/
def moveCubie (axis : Axis) (index direction : ℤ) (c : Cubie) : Cubie :=
  if selects axis index c.position then
    { position := snapPos ((quarterRot axis direction).apply c.position),
      rotation := snapRotMat ((quarterRot axis direction).mul c.rotation) }
  else c

/-- Big-step semantics of `rotateLayer` (lines 218-309).  If a move is in
flight the call returns at once, resolving `false`, with no state change
(lines 219-220).  Otherwise the move runs to completion: the layer is
selected by current world position, rotated exactly 90 degrees times
`direction` about `axis`, drift-corrected, the pivot rotation is reset to
`(0,0,0)` (line 301), the busy flag is cleared (line 302), `onMoveComplete`
fires once (line 303) and the promise resolves `true` (line 304). -/
def rotateLayer (axis : Axis) (index direction : ℤ) (s : CubeState) :
    Bool × CubeState :=
  if s.isAnimating then (false, s)
  else
    (true,
      { cubies := s.cubies.map (moveCubie axis index direction),
        isAnimating := false,
        pivotRot := ⟨0, 0, 0⟩,
        completeCount := s.completeCount + 1 })

/-- The notation table of `rotateFace` (the `switch` of lines 334-354):
face letter to `(axis, index, base direction)`; an unrecognized face gives
no move (`default: return Promise.resolve()`). -/
def faceMove (face : String) : Option (Axis × ℤ × ℤ) :=
  if face = "R" then some (Axis.x, 1, -1)
  else if face = "L" then some (Axis.x, -1, 1)
  else if face = "U" then some (Axis.y, 1, -1)
  else if face = "D" then some (Axis.y, -1, 1)
  else if face = "F" then some (Axis.z, 1, -1)
  else if face = "B" then some (Axis.z, -1, 1)
  else none

/-- The move actually requested: the table entry with the direction negated
when `invert` is set (`if (invert) dir *= -1`, line 356). -/
def resolveMove (face : String) (invert : Bool) : Option (Axis × ℤ × ℤ) :=
  match faceMove face with
  | none => none
  | some (axis, index, d) => some (axis, index, if invert then -d else d)

/-- Big-step semantics of `rotateFace` (lines 324-359).  An unrecognized
face resolves the promise with no value (`undefined`) and touches nothing;
a recognized face delegates to `rotateLayer`. -/
def rotateFace (face : String) (invert : Bool) (s : CubeState) :
    Option Bool × CubeState :=
  match resolveMove face invert with
  | none => (none, s)
  | some (axis, index, direction) =>
      let r := rotateLayer axis index direction s
      (some r.1, r.2)

/-- A sequence of `rotateFace` calls, each allowed to complete before the
next is issued. -/
def applyMoves (moves : List (String × Bool)) (s : CubeState) : CubeState :=
  moves.foldl (fun st mv => (rotateFace mv.1 mv.2 st).2) s

/-- The drift-correction invariant for one cubie: its world position is one
of the 27 canonical grid points, and its orientation is invariant under the
snap that rounds each Euler angle to the nearest multiple of 90 degrees
(so each rotation component is an exact multiple of 90 degrees). -/
def SnappedCubie (c : Cubie) : Prop :=
  c.position ∈ gridPositions ∧ snapRotMat c.rotation = c.rotation

instance (c : Cubie) : Decidable (SnappedCubie c) :=
  inferInstanceAs
    (Decidable (c.position ∈ gridPositions ∧ snapRotMat c.rotation = c.rotation))

/-- The action of a completed move on a cubie's position alone (selection
depends only on the position). -/
def posStep (axis : Axis) (index direction : ℤ) (p : Vec3) : Vec3 :=
  if selects axis index p then snapPos ((quarterRot axis direction).apply p) else p

/-- The action of a completed move on a selected cubie's orientation. -/
def rotStep (axis : Axis) (direction : ℤ) (m : Mat3) : Mat3 :=
  snapRotMat ((quarterRot axis direction).mul m)

/-- The six `(axis, index, base direction)` triples of the notation table. -/
def moveTable : List (Axis × ℤ × ℤ) :=
  [(Axis.x, 1, -1), (Axis.x, -1, 1), (Axis.y, 1, -1),
   (Axis.y, -1, 1), (Axis.z, 1, -1), (Axis.z, -1, 1)]

/-- Animation progress at a sampled frame (line 262):
`Math.min ((now - startTime) / duration, 1)`; times are integer
milliseconds, as `Date.now()` returns. -/
def animProgress (startTime now duration : ℤ) : ℚ :=
  min (((now - startTime : ℤ) : ℚ) / (duration : ℚ)) 1

/-- Cubic ease-out (line 265): `1 - (1 - progress)^3`. -/
def easeOutCubic (t : ℚ) : ℚ :=
  1 - (1 - t) ^ 3

/-- The move's target rotation (line 256), in quarter turns:
`(Math.PI / 2) * direction` is `direction` quarter turns. -/
def targetRotation (direction : ℤ) : ℚ :=
  (direction : ℚ)

/-- The pivot angle driven at a sampled frame (line 267):
`targetRotation * eased`, in quarter turns. -/
def currentAngle (direction : ℤ) (startTime now duration : ℤ) : ℚ :=
  targetRotation direction * easeOutCubic (animProgress startTime now duration)

/-- An Euler triple with rational components, in quarter turns (the pivot's
rotation mid-animation). -/
structure Vec3Q where
  x : ℚ
  y : ℚ
  z : ℚ
  deriving DecidableEq

/-- Component of a rational Euler triple along an axis. -/
def axisCoordQ : Axis → Vec3Q → ℚ
  | Axis.x, v => v.x
  | Axis.y, v => v.y
  | Axis.z, v => v.z

/-- The pivot's Euler rotation at a sampled frame: reset to `(0,0,0)` at
line 245, then only the move's axis component is driven (lines 269-271). -/
def framePivot (axis : Axis) (direction : ℤ) (startTime now duration : ℤ) : Vec3Q :=
  match axis with
  | Axis.x => ⟨currentAngle direction startTime now duration, 0, 0⟩
  | Axis.y => ⟨0, currentAngle direction startTime now duration, 0⟩
  | Axis.z => ⟨0, 0, currentAngle direction startTime now duration⟩

/-- Bounded Euler first/third components as the extraction returns them. -/
def E1 : List ℤ := [-1, 0, 1, 2]

/-- Bounded Euler second components as the extraction returns them. -/
def E2 : List ℤ := [-1, 0, 1]

/-- The two directions a move can request (`direction` is `±1`). -/
def D2 : List ℤ := [-1, 1]

/-- The two layer indices the notation table uses. -/
def I2 : List ℤ := [-1, 1]

/-- The three axes as a list. -/
def axes : List Axis := [Axis.x, Axis.y, Axis.z]

set_option maxRecDepth 100000

theorem axis_mem (ax : Axis) : ax ∈ axes := by cases ax <;> decide

theorem qatan2_mem (y x : ℤ) : qatan2 y x ∈ E1 := by
  unfold qatan2
  split_ifs <;> decide

theorem qasin_mem (q : ℤ) : qasin q ∈ E2 := by
  unfold qasin
  split_ifs <;> decide

theorem eulerOfMat_mem (m : Mat3) :
    (eulerOfMat m).1 ∈ E1 ∧ (eulerOfMat m).2.1 ∈ E2 ∧ (eulerOfMat m).2.2 ∈ E1 := by
  unfold eulerOfMat
  split_ifs
  · exact ⟨qatan2_mem _ _, qasin_mem _, qatan2_mem _ _⟩
  · exact ⟨qatan2_mem _ _, qasin_mem _, (by decide : (0 : ℤ) ∈ E1)⟩

theorem h_snapFix : ∀ a ∈ E1, ∀ b ∈ E2, ∀ c ∈ E1,
    snapRotMat (rotOfEuler a b c) = rotOfEuler a b c := by decide

theorem snapRotMat_idem (m : Mat3) : snapRotMat (snapRotMat m) = snapRotMat m := by
  obtain ⟨h1, h2, h3⟩ := eulerOfMat_mem m
  exact h_snapFix _ h1 _ h2 _ h3

theorem snapped_rot_eq (m : Mat3) (h : snapRotMat m = m) :
    ∃ a ∈ E1, ∃ b ∈ E2, ∃ c ∈ E1, m = rotOfEuler a b c := by
  obtain ⟨h1, h2, h3⟩ := eulerOfMat_mem m
  exact ⟨_, h1, _, h2, _, h3, h.symm⟩

theorem h_posGrid : ∀ ax ∈ axes, ∀ d ∈ D2, ∀ p ∈ gridPositions,
    snapPos ((quarterRot ax d).apply p) ∈ gridPositions := by decide

theorem h_selStable : ∀ ax ∈ axes, ∀ i ∈ I2, ∀ d ∈ D2, ∀ p ∈ gridPositions,
    selects ax i (posStep ax i d p) = selects ax i p := by decide

theorem h_pos4 : ∀ ax ∈ axes, ∀ i ∈ I2, ∀ d ∈ D2, ∀ p ∈ gridPositions,
    posStep ax i d (posStep ax i d (posStep ax i d (posStep ax i d p))) = p := by decide

theorem h_posRT : ∀ ax ∈ axes, ∀ i ∈ I2, ∀ d ∈ D2, ∀ p ∈ gridPositions,
    posStep ax i (-d) (posStep ax i d p) = p := by decide

theorem h_rot4 : ∀ ax ∈ axes, ∀ d ∈ D2, ∀ a ∈ E1, ∀ b ∈ E2, ∀ c ∈ E1,
    rotStep ax d (rotStep ax d (rotStep ax d (rotStep ax d (rotOfEuler a b c)))) =
      rotOfEuler a b c := by decide

theorem h_rotRT : ∀ ax ∈ axes, ∀ d ∈ D2, ∀ a ∈ E1, ∀ b ∈ E2, ∀ c ∈ E1,
    rotStep ax (-d) (rotStep ax d (rotOfEuler a b c)) = rotOfEuler a b c := by decide

theorem posStep_grid (ax : Axis) (hax : ax ∈ axes) (i : ℤ) (d : ℤ) (hd : d ∈ D2)
    (p : Vec3) (hp : p ∈ gridPositions) : posStep ax i d p ∈ gridPositions := by
  unfold posStep
  split_ifs
  · exact h_posGrid ax hax d hd p hp
  · exact hp

theorem moveTable_bounds : ∀ m ∈ moveTable, m.1 ∈ axes ∧ m.2.1 ∈ I2 ∧ m.2.2 ∈ D2 := by
  decide

theorem negD2 : ∀ d ∈ D2, -d ∈ D2 := by decide

theorem faceMove_mem (face : String) (m : Axis × ℤ × ℤ) (h : faceMove face = some m) :
    m ∈ moveTable := by
  unfold faceMove at h
  split_ifs at h <;> simp_all [moveTable]

theorem resolveMove_bounds (face : String) (invert : Bool) (a : Axis) (i d : ℤ)
    (h : resolveMove face invert = some (a, i, d)) :
    a ∈ axes ∧ i ∈ I2 ∧ d ∈ D2 := by
  refine ⟨axis_mem a, ?_⟩
  unfold resolveMove at h
  cases hf : faceMove face with
  | none => rw [hf] at h; exact absurd h (by simp)
  | some m =>
    rw [hf] at h
    obtain ⟨a0, i0, d0⟩ := m
    obtain ⟨-, hi0, hd0⟩ := moveTable_bounds _ (faceMove_mem face _ hf)
    simp only [Option.some.injEq, Prod.mk.injEq] at h
    obtain ⟨-, hi, hdd⟩ := h
    refine ⟨hi ▸ hi0, ?_⟩
    cases invert with
    | false => simpa using hdd ▸ hd0
    | true => simpa using hdd ▸ negD2 _ hd0

theorem rotateFace_run (face : String) (invert : Bool) (s : CubeState)
    (a : Axis) (i d : ℤ) (hres : resolveMove face invert = some (a, i, d))
    (hb : s.isAnimating = false) :
    rotateFace face invert s =
      (some true,
       { cubies := s.cubies.map (moveCubie a i d),
         isAnimating := false,
         pivotRot := ⟨0, 0, 0⟩,
         completeCount := s.completeCount + 1 }) := by
  simp [rotateFace, hres, rotateLayer, hb]

theorem rotateFace_cubies (face : String) (invert : Bool) (s : CubeState)
    (a : Axis) (i d : ℤ) (hres : resolveMove face invert = some (a, i, d))
    (hb : s.isAnimating = false) :
    ((rotateFace face invert s).2).cubies = s.cubies.map (moveCubie a i d) ∧
    ((rotateFace face invert s).2).isAnimating = false := by
  rw [rotateFace_run face invert s a i d hres hb]
  exact ⟨rfl, rfl⟩

theorem map_fix {α : Type} (f : α → α) (l : List α) (h : ∀ x ∈ l, f x = x) :
    l.map f = l := by
  induction l with
  | nil => rfl
  | cons x xs ih => simp_all

theorem moveCubie_mk_sel (ax : Axis) (i d : ℤ) (p : Vec3) (m : Mat3)
    (h : selects ax i p = true) :
    moveCubie ax i d ⟨p, m⟩ = ⟨posStep ax i d p, rotStep ax d m⟩ := by
  simp [moveCubie, posStep, rotStep, h]

theorem moveCubie_mk_nosel (ax : Axis) (i d : ℤ) (p : Vec3) (m : Mat3)
    (h : selects ax i p = false) :
    moveCubie ax i d ⟨p, m⟩ = ⟨p, m⟩ := by
  simp [moveCubie, h]

theorem moveCubie_snapped (ax : Axis) (hax : ax ∈ axes) (i d : ℤ) (hd : d ∈ D2)
    (c : Cubie) (hc : SnappedCubie c) : SnappedCubie (moveCubie ax i d c) := by
  obtain ⟨hpos, hrot⟩ := hc
  unfold moveCubie
  split_ifs with hsel
  · exact ⟨h_posGrid ax hax d hd c.position hpos, snapRotMat_idem _⟩
  · exact ⟨hpos, hrot⟩

theorem rotateFace_snapped (face : String) (invert : Bool) (s : CubeState)
    (h : ∀ c ∈ s.cubies, SnappedCubie c) :
    ∀ c ∈ ((rotateFace face invert s).2).cubies, SnappedCubie c := by
  cases hres : resolveMove face invert with
  | none => simpa [rotateFace, hres] using h
  | some m =>
    obtain ⟨a, i, d⟩ := m
    obtain ⟨hax, hi, hd⟩ := resolveMove_bounds face invert a i d hres
    cases hb : s.isAnimating with
    | true => simpa [rotateFace, hres, rotateLayer, hb] using h
    | false =>
      rw [rotateFace_run face invert s a i d hres hb]
      intro c hc
      simp only [List.mem_map] at hc
      obtain ⟨c0, hc0, rfl⟩ := hc
      exact moveCubie_snapped a hax i d hd c0 (h c0 hc0)

theorem moveCubie_four (ax : Axis) (i d : ℤ) (hax : ax ∈ axes) (hi : i ∈ I2)
    (hd : d ∈ D2) (p : Vec3) (m : Mat3) (hp : p ∈ gridPositions)
    (hm : snapRotMat m = m) :
    moveCubie ax i d (moveCubie ax i d (moveCubie ax i d (moveCubie ax i d ⟨p, m⟩)))
      = ⟨p, m⟩ := by
  obtain ⟨a, ha, b, hb, e, he, hmeq⟩ := snapped_rot_eq m hm
  subst hmeq
  by_cases hsel : selects ax i p = true
  · have hg1 := posStep_grid ax hax i d hd _ hp
    have hg2 := posStep_grid ax hax i d hd _ hg1
    have hs1 : selects ax i (posStep ax i d p) = true := by
      rw [h_selStable ax hax i hi d hd _ hp]; exact hsel
    have hs2 : selects ax i (posStep ax i d (posStep ax i d p)) = true := by
      rw [h_selStable ax hax i hi d hd _ hg1]; exact hs1
    have hs3 : selects ax i (posStep ax i d (posStep ax i d (posStep ax i d p)))
        = true := by
      rw [h_selStable ax hax i hi d hd _ hg2]; exact hs2
    rw [moveCubie_mk_sel ax i d _ _ hsel, moveCubie_mk_sel ax i d _ _ hs1,
        moveCubie_mk_sel ax i d _ _ hs2, moveCubie_mk_sel ax i d _ _ hs3,
        h_pos4 ax hax i hi d hd _ hp, h_rot4 ax hax d hd a ha b hb e he]
  · simp only [Bool.not_eq_true] at hsel
    rw [moveCubie_mk_nosel ax i d _ _ hsel, moveCubie_mk_nosel ax i d _ _ hsel,
        moveCubie_mk_nosel ax i d _ _ hsel, moveCubie_mk_nosel ax i d _ _ hsel]

theorem moveCubie_roundtrip (ax : Axis) (i d : ℤ) (hax : ax ∈ axes) (hi : i ∈ I2)
    (hd : d ∈ D2) (p : Vec3) (m : Mat3) (hp : p ∈ gridPositions)
    (hm : snapRotMat m = m) :
    moveCubie ax i (-d) (moveCubie ax i d ⟨p, m⟩) = ⟨p, m⟩ := by
  obtain ⟨a, ha, b, hb, e, he, hmeq⟩ := snapped_rot_eq m hm
  subst hmeq
  by_cases hsel : selects ax i p = true
  · have hs1 : selects ax i (posStep ax i d p) = true := by
      rw [h_selStable ax hax i hi d hd _ hp]; exact hsel
    rw [moveCubie_mk_sel ax i d _ _ hsel, moveCubie_mk_sel ax i (-d) _ _ hs1,
        h_posRT ax hax i hi d hd _ hp, h_rotRT ax hax d hd a ha b hb e he]
  · simp only [Bool.not_eq_true] at hsel
    rw [moveCubie_mk_nosel ax i d _ _ hsel, moveCubie_mk_nosel ax i (-d) _ _ hsel]

/-- C1: after any completed move, every cubie's world position is one of
the 27 canonical grid points `{-1,0,1}³ * 1.02` (102 centi-units) and
every cubie's rotation is an exact multiple of 90 degrees about each axis;
the drift-correction snap after ungrouping restores this invariant, and it
is preserved across every sequence of completed moves. -/
theorem snapped_invariant_preserved (moves : List (String × Bool)) (s : CubeState)
    (h : ∀ c ∈ s.cubies, SnappedCubie c) :
    ∀ c ∈ (applyMoves moves s).cubies, SnappedCubie c := by
  induction moves generalizing s with
  | nil => simpa [applyMoves] using h
  | cons mv ms ih =>
    have h1 := rotateFace_snapped mv.1 mv.2 s h
    simpa [applyMoves] using ih _ h1

theorem snapped_invariant_preserved_witness :
    SnappedCubie
      ((applyMoves [("R", false), ("U", true)] initialState).cubies.getD 0
        ⟨⟨0, 0, 0⟩, Mat3.identityM⟩) :=
  snapped_invariant_preserved [("R", false), ("U", true)] initialState (by decide) _
    (by decide)

/-- C6: starting from any state satisfying the snapped-grid invariant with
no move in flight, applying `rotateFace (face, false)` four times in
sequence (each call completing before the next) returns every cubie to its
pre-sequence world position and orientation, for every recognized face. -/
theorem four_moves_identity (s : CubeState) (face : String) (a : Axis) (i d : ℤ)
    (hface : faceMove face = some (a, i, d)) (hb : s.isAnimating = false)
    (hs : ∀ c ∈ s.cubies, SnappedCubie c) :
    (applyMoves [(face, false), (face, false), (face, false), (face, false)] s).cubies
      = s.cubies := by
  have hres : resolveMove face false = some (a, i, d) := by simp [resolveMove, hface]
  obtain ⟨hax, hi, hd⟩ := resolveMove_bounds face false a i d hres
  obtain ⟨c1, b1⟩ := rotateFace_cubies face false s a i d hres hb
  obtain ⟨c2, b2⟩ := rotateFace_cubies face false _ a i d hres b1
  obtain ⟨c3, b3⟩ := rotateFace_cubies face false _ a i d hres b2
  obtain ⟨c4, b4⟩ := rotateFace_cubies face false _ a i d hres b3
  have e0 : applyMoves [(face, false), (face, false), (face, false), (face, false)] s
      = (rotateFace face false ((rotateFace face false ((rotateFace face false
          ((rotateFace face false s).2)).2)).2)).2 := by
    simp [applyMoves]
  rw [e0, c4, c3, List.map_map, c2, List.map_map, c1, List.map_map]
  apply map_fix
  intro c hc
  obtain ⟨hp, hm⟩ := hs c hc
  obtain ⟨p, m⟩ := c
  have h4 := moveCubie_four a i d hax hi hd p m hp hm
  simpa [Function.comp] using h4

theorem four_moves_identity_witness :
    (applyMoves [("R", false), ("R", false), ("R", false), ("R", false)]
        initialState).cubies
      = initialState.cubies :=
  four_moves_identity initialState "R" Axis.x 1 (-1) (by decide) (by decide) (by decide)

/-- C7: from any state satisfying the snapped-grid invariant with no move
in flight, a completed `rotateFace (face, false)` followed by a completed
`rotateFace (face, true)` is the identity on every cubie's world transform;
in particular, from the solved state the sequence U, U-prime, U, U-prime
returns the cube to the solved arrangement. -/
theorem round_trip_identity :
    (∀ (s : CubeState) (face : String) (a : Axis) (i d : ℤ),
        faceMove face = some (a, i, d) → s.isAnimating = false →
        (∀ c ∈ s.cubies, SnappedCubie c) →
        (applyMoves [(face, false), (face, true)] s).cubies = s.cubies)
    ∧ (applyMoves [("U", false), ("U", true), ("U", false), ("U", true)]
          initialState).cubies
        = initialState.cubies := by
  constructor
  · intro s face a i d hface hb hs
    have hres1 : resolveMove face false = some (a, i, d) := by
      simp [resolveMove, hface]
    have hres2 : resolveMove face true = some (a, i, -d) := by
      simp [resolveMove, hface]
    obtain ⟨hax, hi, hd⟩ := resolveMove_bounds face false a i d hres1
    obtain ⟨c1, b1⟩ := rotateFace_cubies face false s a i d hres1 hb
    obtain ⟨c2, b2⟩ := rotateFace_cubies face true _ a i (-d) hres2 b1
    have e0 : applyMoves [(face, false), (face, true)] s
        = (rotateFace face true ((rotateFace face false s).2)).2 := by
      simp [applyMoves]
    rw [e0, c2, c1, List.map_map]
    apply map_fix
    intro c hc
    obtain ⟨hp, hm⟩ := hs c hc
    obtain ⟨p, m⟩ := c
    have h2 := moveCubie_roundtrip a i d hax hi hd p m hp hm
    simpa [Function.comp] using h2
  · decide

theorem round_trip_identity_witness :
    (applyMoves [("R", false), ("R", true)] initialState).cubies
      = initialState.cubies :=
  round_trip_identity.1 initialState "R" Axis.x 1 (-1) (by decide) (by decide)
    (by decide)

theorem count9 : ∀ ax ∈ axes, ∀ i ∈ gridIndices,
    List.countP (fun p => selects ax i p) gridPositions = 9 := by decide

theorem gridCoordVals : ∀ ax ∈ axes, ∀ p ∈ gridPositions,
    axisCoord ax p = -102 ∨ axisCoord ax p = 0 ∨ axisCoord ax p = 102 := by decide

theorem out_of_range_not_selected (i : ℤ) (hi : i ∉ gridIndices) (ax : Axis)
    (p : Vec3) (hp : p ∈ gridPositions) : selects ax i p = false := by
  have hq := gridCoordVals ax (axis_mem ax) p hp
  have hrange : i ≤ -2 ∨ 2 ≤ i := by
    simp only [gridIndices, List.mem_cons, List.not_mem_nil, or_false] at hi
    omega
  simp only [selects, decide_eq_false_iff_not, not_lt, CUBE_SIZE, SPACING,
    appliedTolerance]
  rw [le_abs]
  rcases hrange with h | h <;> rcases hq with hq | hq | hq <;> rw [hq] <;> omega

/-- C2: the filter includes a cubie exactly when the absolute difference
between its current world coordinate along the move's axis and
`layerIndex * 1.02` is strictly below the applied tolerance; when the
cubies' positions are the 27 canonical grid points, exactly 9 of the 27
cubies are selected for any axis and any layer index in {-1, 0, 1}, and an
out-of-range layer index selects nothing. -/
theorem layer_selection_correct (s : CubeState)
    (h : List.Perm (s.cubies.map Cubie.position) gridPositions) :
    (∀ (ax : Axis) (i : ℤ) (p : Vec3),
        selects ax i p = true ↔ |axisCoord ax p - i * TOTAL_SIZE| < appliedTolerance)
    ∧ (∀ ax : Axis, ∀ i ∈ gridIndices, (activeCubies ax i s).length = 9)
    ∧ (∀ (ax : Axis) (i : ℤ), i ∉ gridIndices → activeCubies ax i s = []) := by
  refine ⟨?_, ?_, ?_⟩
  · intro ax i p
    simp [selects, TOTAL_SIZE]
  · intro ax i hi
    have h1 : (activeCubies ax i s).length
        = List.countP (fun c => selects ax i c.position) s.cubies := by
      unfold activeCubies
      exact (List.countP_eq_length_filter _ _).symm
    have h2 : List.countP (fun c => selects ax i c.position) s.cubies
        = List.countP (fun p => selects ax i p) (s.cubies.map Cubie.position) := by
      rw [List.countP_map]
      rfl
    rw [h1, h2, h.countP_eq]
    exact count9 ax (axis_mem ax) i hi
  · intro ax i hi
    unfold activeCubies
    rw [List.filter_eq_nil_iff]
    intro c hc
    have hp : c.position ∈ gridPositions :=
      h.mem_iff.mp (List.mem_map_of_mem Cubie.position hc)
    simp [out_of_range_not_selected i hi ax c.position hp]

theorem layer_selection_correct_witness :
    (activeCubies Axis.y 1 initialState).length = 9 :=
  (layer_selection_correct initialState (List.Perm.refl _)).2.1 Axis.y 1 (by decide)

/-- C3: the notation table maps R to (X, +1, -1), L to (X, -1, +1),
U to (Y, +1, -1), D to (Y, -1, +1), F to (Z, +1, -1), B to (Z, -1, +1);
and for every face, inverting produces the same axis and layer index with
the direction negated. -/
theorem face_mapping_table :
    faceMove "R" = some (Axis.x, 1, -1)
    ∧ faceMove "L" = some (Axis.x, -1, 1)
    ∧ faceMove "U" = some (Axis.y, 1, -1)
    ∧ faceMove "D" = some (Axis.y, -1, 1)
    ∧ faceMove "F" = some (Axis.z, 1, -1)
    ∧ faceMove "B" = some (Axis.z, -1, 1)
    ∧ (∀ face : String, resolveMove face true
        = (resolveMove face false).map fun m => (m.1, m.2.1, -m.2.2)) := by
  refine ⟨by decide, by decide, by decide, by decide, by decide, by decide, ?_⟩
  intro face
  unfold resolveMove
  cases faceMove face with
  | none => rfl
  | some m =>
    obtain ⟨a, i, d⟩ := m
    simp

/-- C4 (amended): while a move is in flight, a second `rotateFace` call
performs no state mutation whatever its arguments — cubies, pivot and busy
flag are untouched — and its promise resolves with the boolean `false` for
every recognized face; for an unrecognized face it resolves with no value
(`undefined`), which is falsy but not the boolean `false`. -/
theorem busy_rejection_no_mutation (s : CubeState) (face : String) (invert : Bool)
    (h : s.isAnimating = true) :
    (rotateFace face invert s).2 = s
    ∧ (∀ m, resolveMove face invert = some m → (rotateFace face invert s).1 = some false)
    ∧ (resolveMove face invert = none → (rotateFace face invert s).1 = none) := by
  cases hres : resolveMove face invert with
  | none =>
    refine ⟨by simp [rotateFace, hres], ?_, fun _ => by simp [rotateFace, hres]⟩
    intro m hm
    exact absurd hm (by simp)
  | some m =>
    obtain ⟨a, i, d⟩ := m
    refine ⟨by simp [rotateFace, hres, rotateLayer, h], ?_, ?_⟩
    · intro m' hm'
      simp [rotateFace, hres, rotateLayer, h]
    · intro hnone
      exact absurd hnone (by simp)

theorem busy_rejection_no_mutation_witness :
    (rotateFace "U" false busyState).2 = busyState
      ∧ (rotateFace "U" false busyState).1 = some false :=
  ⟨(busy_rejection_no_mutation busyState "U" false (by decide)).1,
   (busy_rejection_no_mutation busyState "U" false (by decide)).2.1
     (Axis.y, 1, -1) (by decide)⟩

/-- C4 counterexample to the claim as stated: in a busy state, a call with
an unrecognized face does not resolve with the boolean `false` (it resolves
with no value), although the claim asserts `success = false` for any
arguments. -/
theorem busy_rejection_counterexample :
    busyState.isAnimating = true
      ∧ (rotateFace "Q" false busyState).1 ≠ some false := by
  decide

/-- C5 (amended): for every face outside {U,D,L,R,F,B} (the empty string
included) `rotateFace` is a complete no-op: it does not throw, does not set
the busy flag, alters no cubie and no pivot state, and resolves with no
value (`undefined`) — a falsy value, not the boolean `false`. -/
theorem invalid_face_noop (s : CubeState) (face : String) (invert : Bool)
    (h : faceMove face = none) :
    rotateFace face invert s = (none, s) := by
  simp [rotateFace, resolveMove, h]

theorem invalid_face_noop_witness :
    rotateFace "" false initialState = (none, initialState) :=
  invalid_face_noop initialState "" false (by decide)

/-- C5 counterexample to the claim as stated: the empty face string makes
the promise resolve with no value, not with the boolean `false` the claim
asserts. -/
theorem invalid_face_counterexample :
    faceMove "" = none ∧ (rotateFace "" false initialState).1 ≠ some false := by
  decide

/-- C8: at every sampled frame with a positive duration and a sample time
at or after the start, the progress value lies in [0,1], the eased value is
`1 - (1 - progress)^3`, the pivot's rotation about the move's axis is
`direction * eased` quarter turns (the code's `(π/2) * direction * eased`
radians), and the other two rotation components are zero. -/
theorem animation_frame_spec (axis : Axis) (direction : ℤ)
    (startTime now duration : ℤ) (hd : 0 < duration) (hn : startTime ≤ now) :
    0 ≤ animProgress startTime now duration
    ∧ animProgress startTime now duration ≤ 1
    ∧ easeOutCubic (animProgress startTime now duration)
        = 1 - (1 - animProgress startTime now duration) ^ 3
    ∧ axisCoordQ axis (framePivot axis direction startTime now duration)
        = (direction : ℚ) * (1 - (1 - animProgress startTime now duration) ^ 3)
    ∧ (∀ ax : Axis, ax ≠ axis →
        axisCoordQ ax (framePivot axis direction startTime now duration) = 0) := by
  refine ⟨?_, ?_, rfl, ?_, ?_⟩
  · unfold animProgress
    refine le_min ?_ (by norm_num)
    apply div_nonneg
    · exact_mod_cast sub_nonneg.mpr hn
    · exact_mod_cast hd.le
  · exact min_le_right _ _
  · cases axis <;>
      simp [framePivot, axisCoordQ, currentAngle, targetRotation, easeOutCubic]
  · intro ax hne
    cases axis <;> cases ax <;> simp_all [framePivot, axisCoordQ]

theorem animation_frame_spec_witness :
    0 ≤ animProgress 0 150 300
    ∧ animProgress 0 150 300 ≤ 1
    ∧ easeOutCubic (animProgress 0 150 300)
        = 1 - (1 - animProgress 0 150 300) ^ 3
    ∧ axisCoordQ Axis.y (framePivot Axis.y (-1) 0 150 300)
        = ((-1 : ℤ) : ℚ) * (1 - (1 - animProgress 0 150 300) ^ 3)
    ∧ (∀ ax : Axis, ax ≠ Axis.y →
        axisCoordQ ax (framePivot Axis.y (-1) 0 150 300) = 0) :=
  animation_frame_spec Axis.y (-1) 0 150 300 (by decide) (by decide)

/-- C9: an accepted move (busy flag clear, face recognized) completes with
the promise resolving `true`, the busy flag cleared, the pivot rotation
reset to identity, and the `onMoveComplete` callback fired exactly once;
a rejected (busy) or invalid (unrecognized face) call never fires the
callback. -/
theorem completion_semantics :
    (∀ (s : CubeState) (face : String) (invert : Bool) (a : Axis) (i d : ℤ),
        s.isAnimating = false → resolveMove face invert = some (a, i, d) →
        rotateFace face invert s
          = (some true,
             { cubies := s.cubies.map (moveCubie a i d),
               isAnimating := false,
               pivotRot := ⟨0, 0, 0⟩,
               completeCount := s.completeCount + 1 }))
    ∧ (∀ (s : CubeState) (face : String) (invert : Bool),
        s.isAnimating = true ∨ resolveMove face invert = none →
        ((rotateFace face invert s).2).completeCount = s.completeCount) := by
  constructor
  · intro s face invert a i d hb hres
    exact rotateFace_run face invert s a i d hres hb
  · intro s face invert hcase
    cases hres : resolveMove face invert with
    | none => simp [rotateFace, hres]
    | some m =>
      obtain ⟨a, i, d⟩ := m
      rcases hcase with hb | hnone
      · simp [rotateFace, hres, rotateLayer, hb]
      · rw [hres] at hnone
        exact absurd hnone (by simp)

/-- C10: the tolerance the layer filter applies is the hardcoded 0.5 world
units (50 centi-units), not the declared `epsilon` of 0.1 (10 centi-units):
a cubie is included exactly when its coordinate deviates from
`layerIndex * 1.02` by strictly less than 0.5, so a deviation of at least
0.1 but below 0.5 is still selected — witnessed by a deviation of 0.3. -/
theorem selection_tolerance_half :
    epsilon = 10 ∧ appliedTolerance = 50
    ∧ (∀ (ax : Axis) (i : ℤ) (p : Vec3),
        selects ax i p = true ↔ |axisCoord ax p - i * TOTAL_SIZE| < appliedTolerance)
    ∧ (∀ (ax : Axis) (i : ℤ) (p : Vec3),
        epsilon ≤ |axisCoord ax p - i * TOTAL_SIZE| →
        |axisCoord ax p - i * TOTAL_SIZE| < appliedTolerance →
        selects ax i p = true)
    ∧ selects Axis.x 1 ⟨132, 0, 0⟩ = true
    ∧ ¬ |axisCoord Axis.x ⟨132, 0, 0⟩ - 1 * TOTAL_SIZE| < epsilon := by
  refine ⟨rfl, rfl, ?_, ?_, by decide, by decide⟩
  · intro ax i p
    simp [selects, TOTAL_SIZE]
  · intro ax i p _ hlt
    simp only [TOTAL_SIZE] at hlt
    simp [selects]
    exact hlt
